import Mathlib

/-!
Verification of the libcamera 2D plane transform algebra
(`src/libcamera/transform.cpp`).

A `Transform` is encoded as a 3-bit pattern: bit 0 = horizontal flip,
bit 1 = vertical flip, bit 2 = transposition. We embed the eight enum
values as natural numbers `0..7` and translate each function of the
source file into a Lean function over those bit patterns.
-/

namespace Libcamera

namespace Transform

def Identity : Nat := 0

def Rot0 : Nat := 0

def HFlip : Nat := 1

def VFlip : Nat := 2

def HVFlip : Nat := 3

def Rot180 : Nat := 3

def Transpose : Nat := 4

def Rot270 : Nat := 5

def Rot90 : Nat := 6

def Rot180Transpose : Nat := 7

end Transform

/-- Embedding of `operator*(Transform t1, Transform t0)`: compose two
transforms, with `t0` applied first and `t1` second. If `t0` has its
transpose bit set, `t1`'s flip bits are swapped (hflip becomes vflip and
vice versa) before the two patterns are XOR-ed together. -/
def compose (t1 t0 : Nat) : Nat :=
  let reordered :=
    if t0 &&& Transform.Transpose ≠ 0 then
      let r := t1 &&& Transform.Transpose
      let r := if t1 &&& Transform.HFlip ≠ 0 then r ||| Transform.VFlip else r
      let r := if t1 &&& Transform.VFlip ≠ 0 then r ||| Transform.HFlip else r
      r
    else t1
  reordered ^^^ t0

/-- Embedding of the `inverses` lookup table of `operator-(Transform t)`. -/
def inverses : List Nat :=
  [Transform.Identity,
   Transform.HFlip,
   Transform.VFlip,
   Transform.HVFlip,
   Transform.Transpose,
   Transform.Rot90,
   Transform.Rot270,
   Transform.Rot180Transpose]

/-- Embedding of `operator-(Transform t)`: invert a transform via the
fixed lookup table. -/
def inverse (t : Nat) : Nat := inverses.getD t 0

/-- Modelled from the spec: `operator~(Transform t)` is declared in
`transform.h`, which is not part of the sources at hand; the spec says it
returns "the transform with all the bits inverted individually" (flip
every bit of the 3-bit pattern, mapping `x` to `7 - x`). -/
def complement (t : Nat) : Nat := t ^^^ 7

/-- Embedding of `transformFromRotation(int angle, bool *success)`.
The `bool *success` out-parameter is modelled as an `Option Bool`:
`none` is a null pointer, `some b` a pointer to a cell holding `b`.
The result pairs the returned transform with the final cell contents.
C++ `%` on `int` is truncated remainder, i.e. `Int.tmod`. -/
def transformFromRotation (angle : Int) (success : Option Bool) : Nat × Option Bool :=
  let angle := angle.tmod 360
  let angle := if angle < 0 then angle + 360 else angle
  let success := if success.isSome then some true else success
  if angle = 0 then (Transform.Identity, success)
  else if angle = 90 then (Transform.Rot90, success)
  else if angle = 180 then (Transform.Rot180, success)
  else if angle = 270 then (Transform.Rot270, success)
  else
    let success := if success.isSome then some false else success
    (Transform.Identity, success)

/-- Embedding of the `strings` lookup table of `transformToString`. -/
def strings : List String :=
  ["identity",
   "hflip",
   "vflip",
   "hvflip",
   "transpose",
   "rot270",
   "rot90",
   "rot180transpose"]

/-- Embedding of `transformToString(Transform t)`: look the transform up
in the fixed name table, indexed by its bit pattern. -/
def transformToString (t : Nat) : String := strings.getD t ""

/-! ### Helper lemmas -/

/-- Lower bound of the truncated remainder by 360. -/
theorem tmod_360_lower_bound (a : Int) : -360 < a.tmod 360 := by
  cases a with
  | ofNat m =>
      have h : 0 ≤ (Int.ofNat m).tmod 360 := Int.tmod_nonneg 360 (Int.ofNat_nonneg m)
      omega
  | negSucc m =>
      have h : (Int.negSucc m).tmod 360 = -(((m + 1) % 360 : Nat) : Int) := rfl
      have h2 : (m + 1) % 360 < 360 := Nat.mod_lt _ (by omega)
      omega

/-- The C normalization step — truncated remainder by 360, plus 360 when
negative — agrees with the mathematical (Euclidean) remainder in
`[0, 360)`. -/
theorem tmod_adjust_eq_emod (a : Int) :
    (if a.tmod 360 < 0 then a.tmod 360 + 360 else a.tmod 360) = a % 360 := by
  have h1 : a.tmod 360 + 360 * a.tdiv 360 = a := Int.tmod_add_tdiv a 360
  have h2 : a.tmod 360 < 360 := Int.tmod_lt_of_pos a (by omega)
  have h3 : -360 < a.tmod 360 := tmod_360_lower_bound a
  split <;> omega

/-- Normal form of `transformFromRotation` when the success pointer is
non-null: the result is selected by the Euclidean remainder of the angle
by 360, and the pointed-to cell ends up `true` on the four right angles
and `false` otherwise. -/
theorem transformFromRotation_some (a : Int) (b : Bool) :
    transformFromRotation a (some b) =
      (if a % 360 = 0 then (Transform.Identity, some true)
       else if a % 360 = 90 then (Transform.Rot90, some true)
       else if a % 360 = 180 then (Transform.Rot180, some true)
       else if a % 360 = 270 then (Transform.Rot270, some true)
       else (Transform.Identity, some false)) := by
  simp only [transformFromRotation, Option.isSome_some]
  rw [tmod_adjust_eq_emod]
  simp

/-- Normal form of `transformFromRotation` when the success pointer is
null: no write happens and the returned transform is selected by the
Euclidean remainder of the angle by 360. -/
theorem transformFromRotation_none (a : Int) :
    transformFromRotation a none =
      (if a % 360 = 0 then (Transform.Identity, (none : Option Bool))
       else if a % 360 = 90 then (Transform.Rot90, none)
       else if a % 360 = 180 then (Transform.Rot180, none)
       else if a % 360 = 270 then (Transform.Rot270, none)
       else (Transform.Identity, none)) := by
  simp only [transformFromRotation, Option.isSome_none]
  rw [tmod_adjust_eq_emod]
  simp

/-! ### Claims -/

/-- Claim C1: composition applies the right operand first and the left
second, and is non-commutative: `Transpose * HFlip = Rot270` (value 5)
while `HFlip * Transpose = Rot90` (value 6), and the two results
differ. -/
theorem compose_transpose_hflip :
    compose Transform.Transpose Transform.HFlip = Transform.Rot270 ∧
    compose Transform.HFlip Transform.Transpose = Transform.Rot90 ∧
    compose Transform.Transpose Transform.HFlip ≠
      compose Transform.HFlip Transform.Transpose := by decide

/-- Claim C2: composition is associative over the whole 8-element domain
(all 512 triples). -/
theorem compose_assoc :
    ∀ a b c : Fin 8,
      compose (compose a.val b.val) c.val = compose a.val (compose b.val c.val) := by
  decide

/-- Claim C3: `Identity` (value 0) is a two-sided neutral element of
composition. -/
theorem compose_identity :
    ∀ t : Fin 8,
      compose Transform.Identity t.val = t.val ∧
      compose t.val Transform.Identity = t.val := by
  decide

/-- Claim C4: inversion is a two-sided group inverse: for every
transform `t`, `t * (-t) = Identity` and `(-t) * t = Identity`. -/
theorem compose_inverse :
    ∀ t : Fin 8,
      compose t.val (inverse t.val) = Transform.Identity ∧
      compose (inverse t.val) t.val = Transform.Identity := by
  decide

/-- Claim C5: the inverse table swaps exactly `Rot90` and `Rot270` and
fixes the other six values. -/
theorem inverse_table_swap :
    inverse Transform.Rot90 = Transform.Rot270 ∧
    inverse Transform.Rot270 = Transform.Rot90 ∧
    ∀ t : Fin 8,
      inverse t.val =
        if t.val = Transform.Rot90 then Transform.Rot270
        else if t.val = Transform.Rot270 then Transform.Rot90
        else t.val := by
  decide

/-- Claim C6: `transformFromRotation` normalizes any integer angle
modulo 360 into `[0, 360)` (adding 360 to a negative remainder), maps
normalized angles 0, 90, 180, 270 to `(Identity, true)`, `(Rot90, true)`,
`(Rot180, true)`, `(Rot270, true)` respectively, and every other angle
to `(Identity, false)`; in particular `-90 ↦ (Rot270, true)`,
`450 ↦ (Rot90, true)`, `45 ↦ (Identity, false)`. -/
theorem transformFromRotation_spec (a : Int) (b : Bool) :
    (transformFromRotation a (some b) =
      if a % 360 = 0 then (Transform.Identity, some true)
      else if a % 360 = 90 then (Transform.Rot90, some true)
      else if a % 360 = 180 then (Transform.Rot180, some true)
      else if a % 360 = 270 then (Transform.Rot270, some true)
      else (Transform.Identity, some false)) ∧
    transformFromRotation (-90) (some b) = (Transform.Rot270, some true) ∧
    transformFromRotation 450 (some b) = (Transform.Rot90, some true) ∧
    transformFromRotation 45 (some b) = (Transform.Identity, some false) := by
  refine ⟨transformFromRotation_some a b, ?_, ?_, ?_⟩ <;>
    rw [transformFromRotation_some] <;> norm_num

/-- Claim C7: `transformToString` is the fixed lookup indexed by bit
pattern mapping 0..7 to `identity`, `hflip`, `vflip`, `hvflip`,
`transpose`, `rot270`, `rot90`, `rot180transpose` in that order; in
particular `Rot90` (position 6) maps to `"rot90"` and `Rot270`
(position 5) to `"rot270"`. -/
theorem transformToString_table :
    transformToString 0 = "identity" ∧
    transformToString 1 = "hflip" ∧
    transformToString 2 = "vflip" ∧
    transformToString 3 = "hvflip" ∧
    transformToString 4 = "transpose" ∧
    transformToString 5 = "rot270" ∧
    transformToString 6 = "rot90" ∧
    transformToString 7 = "rot180transpose" ∧
    transformToString Transform.Rot90 = "rot90" ∧
    transformToString Transform.Rot270 = "rot270" := by
  decide

/-- Claim C8, counterexample: the claim asserts
`complement HFlip = Rot180Transpose`, but flipping every bit of
`HFlip` (value 1, bits 001) yields bits 110 = value 6 = `Rot90`,
not `Rot180Transpose` (value 7). -/
theorem complement_hflip_not_rot180transpose :
    complement Transform.HFlip ≠ Transform.Rot180Transpose ∧
    complement Transform.HFlip = Transform.Rot90 := by decide

/-- Claim C8, amended: bitwise complement maps value `x` to `7 - x`
(flips every bit), is an involution, and differs from group inversion:
`complement HFlip = Rot90` while `inverse HFlip = HFlip`. -/
theorem complement_involution :
    (∀ t : Fin 8,
      complement (complement t.val) = t.val ∧ complement t.val = 7 - t.val) ∧
    complement Transform.HFlip = Transform.Rot90 ∧
    inverse Transform.HFlip = Transform.HFlip ∧
    complement Transform.HFlip ≠ inverse Transform.HFlip := by decide

/-- Claim C9: whenever the right operand's transpose bit is clear,
composition degenerates to bitwise XOR of the two bit patterns. -/
theorem compose_xor_of_no_transpose (l r : Fin 8)
    (h : r.val &&& Transform.Transpose = 0) :
    compose l.val r.val = l.val ^^^ r.val := by
  revert h
  revert l r
  decide

/-- Witness for claim C9 at `l = HVFlip` (3), `r = HFlip` (1). -/
theorem compose_xor_of_no_transpose_witness :
    ((1 : Fin 8)).val &&& Transform.Transpose = 0 ∧
    compose ((3 : Fin 8)).val ((1 : Fin 8)).val =
      ((3 : Fin 8)).val ^^^ ((1 : Fin 8)).val :=
  ⟨by decide, compose_xor_of_no_transpose 3 1 (by decide)⟩

/-- Claim C10: with a null success pointer `transformFromRotation`
performs no write through the pointer and still returns exactly the same
transform as it would for the same angle with a non-null pointer. -/
theorem transformFromRotation_null_success (angle : Int) (b : Bool) :
    (transformFromRotation angle none).2 = none ∧
    (transformFromRotation angle none).1 = (transformFromRotation angle (some b)).1 := by
  rw [transformFromRotation_none, transformFromRotation_some]
  constructor
  · split_ifs <;> rfl
  · split_ifs <;> rfl

end Libcamera
